import Mathlib

/-!
Shallow embedding of the jest-screenshot-odiff core: the comparator
adapter `compare` (`src/odiff-sync.ts`) and the matcher module with
`checkImages` and `toMatchImageSnapshot`.

Modelling conventions:
* JavaScript numbers are `JSNum`: NaN or a rational value.
* The external odiff binary invocation (`execSync`) is modelled by taking
  the engine's observable behaviour (exit status, captured output) as an
  explicit input of type `EngineResult`.
* File-system effects are modelled by a partial map from paths to file
  contents, threaded through the functions; directory creation (`mkdirp`,
  `mkdtempSync`) has no effect on that map.
* Thrown exceptions become `Except.error`; the matcher additionally
  returns the final mutable state, since a throw after a mutation leaves
  the mutation behind in the source.
-/

/-- The failure reason reported by the odiff adapter
    (`'layout-diff' | 'pixel-diff'` in `OdiffReturnType`). -/
inductive Reason
  | layoutDiff
  | pixelDiff
deriving DecidableEq, Repr

/-- A JavaScript number: NaN or a rational value. -/
inductive JSNum
  | nan
  | num (q : ℚ)
deriving DecidableEq, Repr

/-- JavaScript `>` comparing a number against a rational threshold:
    false when the left side is NaN. -/
def JSNum.gtQ : JSNum → ℚ → Bool
  | .nan, _ => false
  | .num q, t => decide (t < q)

/-- JavaScript multiplication by 100 (NaN propagates). -/
def JSNum.mul100 : JSNum → JSNum
  | .nan => .nan
  | .num q => .num (q * 100)

/-- Decimal rendering of a rational for message interpolation.
    JavaScript prints numbers in shortest round-trip decimal form; the
    integers that occur in practice are rendered exactly, other rationals
    fall back to `num/den` form. -/
def renderQ (q : ℚ) : String :=
  if q.den = 1 then toString q.num else toString q

/-- String interpolation `${x}` of a JavaScript number. -/
def JSNum.render : JSNum → String
  | .nan => "NaN"
  | .num q => renderQ q

/-- Model of `Number.prototype.toFixed(2)` on rationals: round to the
    nearest hundredth (ties up) and print two decimals. -/
def toFixed2 (q : ℚ) : String :=
  let n : Int := round (q * 100)
  let sign := if n < 0 then "-" else ""
  let m := n.natAbs
  let frac := m % 100
  sign ++ toString (m / 100) ++ "." ++ (if frac < 10 then "0" else "") ++ toString frac

/-- `x.toFixed(2)` on a JavaScript number. -/
def JSNum.toFixedTwo : JSNum → String
  | .nan => "NaN"
  | .num q => toFixed2 q

/-- Longest leading run of decimal digits, and the remainder. -/
def takeDigits : List Char → List Char × List Char
  | [] => ([], [])
  | c :: cs =>
    if c.isDigit then
      let p := takeDigits cs
      (c :: p.1, p.2)
    else ([], c :: cs)

/-- Decimal value of a digit string. -/
def digitsToNat (ds : List Char) : Nat :=
  ds.foldl (fun acc c => acc * 10 + (c.toNat - 48)) 0

/-- Model of JavaScript `parseInt` with inferred radix 10: skip leading
    whitespace, optional sign, longest digit prefix; `none` is NaN. -/
def jsParseInt (s : String) : Option Int :=
  let cs := s.data.dropWhile Char.isWhitespace
  match cs with
  | '-' :: rest =>
    let p := takeDigits rest
    if p.1.isEmpty then none else some (-(digitsToNat p.1 : Int))
  | '+' :: rest =>
    let p := takeDigits rest
    if p.1.isEmpty then none else some (digitsToNat p.1)
  | rest =>
    let p := takeDigits rest
    if p.1.isEmpty then none else some (digitsToNat p.1)

/-- Model of JavaScript `parseFloat`: skip leading whitespace, optional
    sign, digits with an optional fractional part; `none` is NaN.
    Exponent notation is not modelled (the engine prints plain decimals). -/
def jsParseFloat (s : String) : Option ℚ :=
  let cs := s.data.dropWhile Char.isWhitespace
  let sgnRest : ℚ × List Char :=
    match cs with
    | '-' :: rest => (-1, rest)
    | '+' :: rest => (1, rest)
    | rest => (1, rest)
  let ip := takeDigits sgnRest.2
  let fp :=
    match ip.2 with
    | '.' :: rest => takeDigits rest
    | _ => ([], ip.2)
  if ip.1.isEmpty ∧ fp.1.isEmpty then none
  else some (sgnRest.1 * ((digitsToNat ip.1 : ℚ) + (digitsToNat fp.1 : ℚ) / ((10 : ℚ) ^ fp.1.length)))

/-- Model of JavaScript `String.prototype.split(';')` on the character
    list of a string. The result is never empty. -/
def splitOnSemi : List Char → List String
  | [] => [""]
  | c :: cs =>
    let r := splitOnSemi cs
    if c = ';' then "" :: r
    else (String.singleton c ++ r.headD "") :: r.tail

/-- `s.split(';')` in JavaScript. -/
def splitSemi (s : String) : List String :=
  splitOnSemi s.data

theorem splitOnSemi_ne_nil (cs : List Char) : splitOnSemi cs ≠ [] := by
  cases cs with
  | nil => simp [splitOnSemi]
  | cons c cs =>
    simp only [splitOnSemi]
    split <;> simp

theorem splitSemi_ne_nil (s : String) : splitSemi s ≠ [] :=
  splitOnSemi_ne_nil s.data

/-- `OdiffReturnType` from `src/odiff-sync.ts`. The source marks
    `reason`, `diffCount`, `diffPercentage` optional; every return site of
    `compare` sets all of them, so they are total here with
    `reason = none` for the absent reason. `match` is a Lean keyword,
    hence the field name `matched`. -/
structure OdiffReturnType where
  matched : Bool
  reason : Option Reason
  diffCount : JSNum
  diffPercentage : JSNum
deriving DecidableEq, Repr

/-- Observable behaviour of one `execSync` invocation of the odiff
    binary: either it returns normally (exit status 0), or it throws an
    error `e` with `e.status` (absent when the process died without an
    exit status) and `e.output` (the captured stdio chunks; a nullish
    `output` is `none`). -/
inductive EngineResult
  | success
  | failure (status : Option Nat) (output : Option (List String))
deriving DecidableEq, Repr

/-- JavaScript truthiness of `e.status`: false for `0`, `null`,
    `undefined`. -/
def jsStatusTruthy : Option Nat → Bool
  | some s => s != 0
  | none => false

/-- `(e.output ?? []).join('')`: nullish output becomes the empty array,
    `join('')` concatenates the chunks. -/
def joinOutput (output : Option (List String)) : String :=
  String.join (output.getD [])

/-- Model of JavaScript `String.prototype.trim`: strip whitespace from
    both ends. -/
def jsTrim (s : String) : String :=
  String.mk (((s.data.dropWhile Char.isWhitespace).reverse.dropWhile Char.isWhitespace).reverse)

/-- The strings `compare` writes to `process.stderr` before rethrowing an
    unexpected engine error (`os.EOL` taken as a newline). -/
def compareDiagnostics (status : Option Nat) (output : Option (List String)) : List String :=
  ["Error executing odiff image comparison in \"@craft.co/jest-screenshot-odiff\""]
    ++ (match status with
        | some s => if s ≠ 0 then ["Exit code: " ++ toString s] else []
        | none => [])
    ++ (match output with
        | some out => [String.intercalate "\n" out]
        | none => [])

/-- `parseInt(diffCount)` result as a JavaScript number. -/
def jsNumOfInt : Option Int → JSNum
  | none => .nan
  | some n => .num n

/-- `parseFloat(diffPercentage) / 100` (NaN propagates through the
    division). -/
def jsNumDiv100 : Option ℚ → JSNum
  | none => .nan
  | some q => .num (q / 100)

namespace OdiffSync

/-- `compare` from `src/odiff-sync.ts`, with the `execSync` call replaced
    by its observable `EngineResult`. `Except.error` is the rethrow of an
    unexpected engine error, carrying the diagnostics written to stderr. -/
def compare (e : EngineResult) : Except (List String) OdiffReturnType :=
  match e with
  | .success =>
    .ok { matched := true, reason := none, diffCount := .num 0, diffPercentage := .num 0 }
  | .failure status output =>
    if jsStatusTruthy status = true ∧ status = some 21 then
      .ok { matched := false, reason := some .layoutDiff, diffCount := .num 0, diffPercentage := .num 0 }
    else if jsStatusTruthy status = true ∧ status = some 22 then
      let parts := splitSemi (jsTrim (joinOutput output))
      let diffCountStr := (parts[0]?).getD "0"
      let diffPercentageStr := (parts[1]?).getD "0"
      .ok { matched := false, reason := some .pixelDiff,
            diffCount := jsNumOfInt (jsParseInt diffCountStr),
            diffPercentage := jsNumDiv100 (jsParseFloat diffPercentageStr) }
    else
      .error (compareDiagnostics status output)

end OdiffSync

/-- Modelled from the spec: `JestScreenshotConfiguration`
    (`src/config.ts` is not among the given sources). Fields follow the
    spec's configuration surface; an absent option is `none`, and
    `typeof x === "number"` corresponds to `Option.isSome`. -/
structure JestScreenshotConfiguration where
  colorThreshold : Option ℚ := none
  detectAntialiasing : Bool := false
  pixelThresholdAbsolute : Option ℚ := none
  pixelThresholdRelative : Option ℚ := none
  snapshotsDir : String := "snapshots"
  reportDir : String := "report"
  noReport : Bool := false
deriving DecidableEq, Repr

/-- `MatcherResult` extended with the fields of `ImageMatcherResult`.
    The lazily produced `message` thunk is modelled as an optional
    string, absent when the source leaves it `undefined`. -/
structure ImageMatcherResult where
  pass : Bool
  message : Option String := none
  changedRelative : Option JSNum := none
  changedPixels : Option JSNum := none
deriving DecidableEq, Repr

/-- `chalk.red`: ANSI color wrapping as emitted with color enabled. -/
def chalkRed (s : String) : String := "\x1b[31m" ++ s ++ "\x1b[39m"

/-- `chalk.green`. -/
def chalkGreen (s : String) : String := "\x1b[32m" ++ s ++ "\x1b[39m"

/-- The preamble of every failure message of `checkImages`. -/
def verdictPreamble (snapshotNumber : Nat) : String :=
  chalkRed "Received value" ++ " does not match " ++
    chalkGreen ("stored snapshot " ++ toString snapshotNumber) ++ "."

/-- Guard of the first rule of `checkImages`:
    `typeof pixelThresholdAbsolute === "number" && diffCount > pixelThresholdAbsolute`. -/
def absoluteThresholdExceeded (c : JestScreenshotConfiguration) (o : OdiffReturnType) : Bool :=
  match c.pixelThresholdAbsolute with
  | some t => o.diffCount.gtQ t
  | none => false

/-- Guard of the second rule of `checkImages`:
    `typeof pixelThresholdRelative === "number" && diffPercentage > pixelThresholdRelative`. -/
def relativeThresholdExceeded (c : JestScreenshotConfiguration) (o : OdiffReturnType) : Bool :=
  match c.pixelThresholdRelative with
  | some t => o.diffPercentage.gtQ t
  | none => false

/-- Guard of the third rule of `checkImages`:
    `match === false && reason === 'layout-diff'`. -/
def dimensionMismatchFailed (o : OdiffReturnType) : Bool :=
  decide (o.matched = false ∧ o.reason = some Reason.layoutDiff)

/-- The failing result of the absolute-pixel-threshold rule of
    `checkImages` (the threshold is `some` whenever this is used). -/
def absoluteFailure (o : OdiffReturnType) (snapshotNumber : Nat)
    (c : JestScreenshotConfiguration) : ImageMatcherResult :=
  { pass := false,
    message := some (verdictPreamble snapshotNumber ++ "\n\n" ++
      "Expected less than " ++
      chalkGreen (renderQ ((c.pixelThresholdAbsolute).getD 0) ++ " pixels") ++
      " to have changed, " ++
      "but " ++ chalkRed (o.diffCount.render ++ " pixels") ++ " changed."),
    changedRelative := some o.diffPercentage,
    changedPixels := some o.diffCount }

/-- The failing result of the relative-pixel-threshold rule of
    `checkImages`. -/
def relativeFailure (o : OdiffReturnType) (snapshotNumber : Nat)
    (c : JestScreenshotConfiguration) : ImageMatcherResult :=
  let percentThreshold := toFixed2 (((c.pixelThresholdRelative).getD 0) * 100)
  let percentChanged := (o.diffPercentage.mul100).toFixedTwo
  { pass := false,
    message := some (verdictPreamble snapshotNumber ++ "\n\n" ++
      "Expected less than " ++ chalkGreen (percentThreshold ++ "%") ++
      " of the pixels to have changed, " ++
      "but " ++ chalkRed (percentChanged ++ "%") ++ " of the pixels changed."),
    changedRelative := some o.diffPercentage,
    changedPixels := some o.diffCount }

/-- The failing result of the dimension-mismatch rule of `checkImages`. -/
def dimensionFailure (o : OdiffReturnType) (snapshotNumber : Nat) : ImageMatcherResult :=
  { pass := false,
    message := some (verdictPreamble snapshotNumber ++ "\n\n" ++
      "Expected snapshot dimensions to be the same, but dimensions changed."),
    changedRelative := some o.diffPercentage,
    changedPixels := some o.diffCount }

/-- The verdict policy of `checkImages` (matcher module, lines 61-101),
    applied to the comparison outcome returned by `compare`: the three
    failure rules in source order, otherwise `{ pass: true }`. -/
def checkImagesVerdict (o : OdiffReturnType) (snapshotNumber : Nat)
    (configuration : JestScreenshotConfiguration) : ImageMatcherResult :=
  if absoluteThresholdExceeded configuration o then absoluteFailure o snapshotNumber configuration
  else if relativeThresholdExceeded configuration o then relativeFailure o snapshotNumber configuration
  else if dimensionMismatchFailed o then dimensionFailure o snapshotNumber
  else { pass := true }

/-- `checkImages`: runs the comparator adapter on the engine behaviour,
    then the verdict policy; an adapter rethrow propagates. -/
def checkImages (e : EngineResult) (snapshotNumber : Nat)
    (configuration : JestScreenshotConfiguration) : Except (List String) ImageMatcherResult :=
  match OdiffSync.compare e with
  | .error d => .error d
  | .ok o => .ok (checkImagesVerdict o snapshotNumber configuration)

/-- Following the spec's words, rule 1 of the verdict policy:
    `pixelThresholdAbsolute` is a configured number and
    `diffCount > pixelThresholdAbsolute` (strict). -/
def specAbsoluteRule (c : JestScreenshotConfiguration) (o : OdiffReturnType) : Prop :=
  ∃ T, c.pixelThresholdAbsolute = some T ∧ o.diffCount.gtQ T = true

/-- Following the spec's words, rule 2 of the verdict policy:
    `pixelThresholdRelative` is a configured number and
    `diffPercentage > pixelThresholdRelative` (strict). -/
def specRelativeRule (c : JestScreenshotConfiguration) (o : OdiffReturnType) : Prop :=
  ∃ R, c.pixelThresholdRelative = some R ∧ o.diffPercentage.gtQ R = true

/-- Following the spec's words, rule 3 of the verdict policy: the
    outcome is unmatched with a dimension-mismatch reason. -/
def specDimensionRule (o : OdiffReturnType) : Prop :=
  o.matched = false ∧ o.reason = some Reason.layoutDiff

theorem absoluteThresholdExceeded_iff (c : JestScreenshotConfiguration) (o : OdiffReturnType) :
    absoluteThresholdExceeded c o = true ↔ specAbsoluteRule c o := by
  unfold absoluteThresholdExceeded specAbsoluteRule
  cases h : c.pixelThresholdAbsolute with
  | none => simp
  | some t =>
    simp only [Option.some.injEq]
    constructor
    · intro hg
      exact ⟨t, rfl, hg⟩
    · rintro ⟨T, hT, hg⟩
      rwa [hT]

theorem relativeThresholdExceeded_iff (c : JestScreenshotConfiguration) (o : OdiffReturnType) :
    relativeThresholdExceeded c o = true ↔ specRelativeRule c o := by
  unfold relativeThresholdExceeded specRelativeRule
  cases h : c.pixelThresholdRelative with
  | none => simp
  | some t =>
    simp only [Option.some.injEq]
    constructor
    · intro hg
      exact ⟨t, rfl, hg⟩
    · rintro ⟨R, hR, hg⟩
      rwa [hR]

theorem dimensionMismatchFailed_iff (o : OdiffReturnType) :
    dimensionMismatchFailed o = true ↔ specDimensionRule o := by
  unfold dimensionMismatchFailed specDimensionRule
  exact decide_eq_true_iff

/-- Contents of a file: raw bytes (a `Buffer` write) or text. -/
inductive FileData
  | bin (bytes : List Nat)
  | txt (s : String)
deriving DecidableEq, Repr

/-- The file system as a partial map from paths to contents. -/
def FS : Type := String → Option FileData

/-- `writeFileSync` (and the effect of `copyFileSync` at its target). -/
def FS.write (fs : FS) (p : String) (d : FileData) : FS :=
  fun q => if q = p then some d else fs q

/-- `existsSync`. -/
def existsSync (fs : FS) (p : String) : Bool := (fs p).isSome

/-- The slice of Jest's `SnapshotState` the matcher reads and mutates. -/
structure SnapshotState where
  _updateSnapshot : String
  _counters : String → Option Nat
  added : Nat
  updated : Nat

/-- The `this` binding of the matcher. `valid` models
    `isJestTestConfiguration(this)`; the definition of that check lives in
    `src/jest.ts`, which is not among the given sources, so it is modelled
    from the spec as a compatibility flag of the calling context. -/
structure JestContext where
  valid : Bool
  testPath : String
  currentTestName : String
  isNot : Bool
  snapshotState : SnapshotState

/-- Per-call environment inputs of one matcher invocation: the fresh
    temporary directory created by `mkdtempSync`, the engine's behaviour
    for this invocation, the diff-mask bytes the engine writes on a pixel
    mismatch, and the current working directory (`process.cwd()`). -/
structure TmisOracle where
  tmpDir : String
  engine : EngineResult
  engineDiff : List Nat
  cwd : String

/-- Modelled from the spec: `getReportDir` from `src/filenames.ts` (not
    among the given sources) — the report root directory. -/
def getReportDir (reportDir : String) : String := reportDir

/-- Modelled from the spec: `getSnapshotPath` from `src/filenames.ts`
    (not among the given sources) — a path derived from
    `(testFilePath, testName, occurrenceIndex, snapshotsDir)`. -/
def getSnapshotPath (testPath testName : String) (occurrenceIndex : Nat)
    (snapshotsDir : String) : String :=
  snapshotsDir ++ "/" ++ testPath ++ "." ++ testName ++ "." ++ toString occurrenceIndex ++ ".png"

/-- Modelled from the spec: `getReportPath` from `src/filenames.ts` (not
    among the given sources) — the report bundle directory derived from
    `(testFilePath, testName, occurrenceIndex, reportDir)`. -/
def getReportPath (testPath testName : String) (occurrenceIndex : Nat)
    (reportDir : String) : String :=
  getReportDir reportDir ++ "/" ++ testPath ++ "." ++ testName ++ "." ++ toString occurrenceIndex

/-- Lower-case hexadecimal digit. -/
def hexDigit (n : Nat) : String :=
  if n < 10 then toString n else String.singleton (Char.ofNat (87 + n))

/-- JSON escaping of one character, as in `JSON.stringify`. -/
def jsonEscapeChar (c : Char) : String :=
  if c = '"' then "\\\""
  else if c = '\\' then "\\\\"
  else if c = '\n' then "\\n"
  else if c = '\r' then "\\r"
  else if c = '\t' then "\\t"
  else if c.toNat < 32 then "\\u00" ++ hexDigit (c.toNat / 16) ++ hexDigit (c.toNat % 16)
  else String.singleton c

/-- `JSON.stringify` of a string. -/
def jsonStr (s : String) : String :=
  "\"" ++ String.join (s.data.map jsonEscapeChar) ++ "\""

/-- `JSON.stringify` of a JavaScript number (NaN serializes to null). -/
def jsonNum : JSNum → String
  | .nan => "null"
  | .num q => renderQ q

/-- An optional-number field of `JSON.stringify`: omitted when the value
    is `undefined`. -/
def jsonOptNumField (k : String) : Option JSNum → List String
  | none => []
  | some v => [jsonStr k ++ ":" ++ jsonNum v]

/-- Modelled from the spec: Node's `path.relative` for the simple case of
    a path below the root. -/
def relPath (root p : String) : String :=
  if (root ++ "/").isPrefixOf p then p.drop (root.length + 1) else p

/-- The `info.json` content of a report bundle
    (`JSON.stringify` of the descriptor object, field order preserved). -/
def infoJson (testName msg : String) (changedRelative changedPixels : Option JSNum)
    (testFileName : String) (snapshotNumber : Nat)
    (receivedPath diffPath snapshotPath : String) : String :=
  "\x7b" ++ String.intercalate ","
    ([jsonStr "testName" ++ ":" ++ jsonStr testName,
      jsonStr "message" ++ ":" ++ jsonStr msg]
     ++ jsonOptNumField "changedRelative" changedRelative
     ++ jsonOptNumField "changedPixels" changedPixels
     ++ [jsonStr "testFileName" ++ ":" ++ jsonStr testFileName,
         jsonStr "snapshotNumber" ++ ":" ++ toString snapshotNumber,
         jsonStr "receivedPath" ++ ":" ++ jsonStr receivedPath,
         jsonStr "diffPath" ++ ":" ++ jsonStr diffPath,
         jsonStr "snapshotPath" ++ ":" ++ jsonStr snapshotPath]) ++ "\x7d"

/-- Abnormal termination of the matcher: a thrown usage error, or the
    rethrown engine error with its stderr diagnostics. -/
inductive JestError
  | usage (msg : String)
  | engine (diagnostics : List String)
deriving DecidableEq, Repr

/-- `(snapshotState._counters.get(currentTestName) || 0) + 1`; a stored
    `0` and an absent entry coincide under `|| 0`. -/
def nextSnapshotNumber (st : SnapshotState) (testName : String) : Nat :=
  (st._counters testName).getD 0 + 1

/-- The explanation returned when the reference image is missing and no
    update flag authorizes writing it. -/
def missingSnapshotMessage : String :=
  "New snapshot was " ++ chalkRed "not written" ++ ". " ++
  "The update flag must be explicitly passed to write a new snapshot.\n\n" ++
  "This is likely because this test is run in a continuous integration (CI) environment " ++
  "in which snapshots are not written by default."

/-- Whether the engine invocation reports a pixel-level mismatch
    (exit status 22), in which case it writes the diff mask at the diff
    output path. -/
def engineWritesDiff : EngineResult → Bool
  | .failure (some 22) _ => true
  | _ => false

/-- The snapshot path the matcher uses: the explicit `parameters.path`
    override when it is a string, else the derived path (which uses the
    occurrence index of this call). -/
def resolvedSnapshotPath (ctx : JestContext) (configuration : JestScreenshotConfiguration)
    (parametersPath : Option String) : String :=
  match parametersPath with
  | some p => p
  | none => getSnapshotPath ctx.testPath ctx.currentTestName
      (nextSnapshotNumber ctx.snapshotState ctx.currentTestName) configuration.snapshotsDir

/-- `toMatchImageSnapshot` from the matcher module. Returns the thrown
    error or the `MatcherResult`, together with the final snapshot state
    and file system (a throw after the counter update leaves the mutated
    state behind, as in the source). The engine writes the diff mask at
    the temporary diff path when it reports a pixel mismatch (exit 22);
    a `copyFileSync` whose source is missing is modelled as a skip. -/
def toMatchImageSnapshot (ctx : JestContext) (received : List Nat)
    (configuration : JestScreenshotConfiguration) (parametersPath : Option String)
    (oracle : TmisOracle) (fs : FS) :
    Except JestError ImageMatcherResult × SnapshotState × FS :=
  if ctx.valid = false then
    (.error (.usage "Jest: Attempted to call `.toMatchImageSnapshot()` outside of Jest context."),
     ctx.snapshotState, fs)
  else if ctx.isNot = true then
    (.error (.usage "Jest: `.not` cannot be used with `.toMatchImageSnapshot()`."),
     ctx.snapshotState, fs)
  else
    let snapshotNumber := nextSnapshotNumber ctx.snapshotState ctx.currentTestName
    let st : SnapshotState := { ctx.snapshotState with
      _counters := fun n => if n = ctx.currentTestName then some snapshotNumber
        else ctx.snapshotState._counters n }
    let snapshotPath := resolvedSnapshotPath ctx configuration parametersPath
    let reportPath := getReportPath ctx.testPath ctx.currentTestName snapshotNumber
      configuration.reportDir
    if existsSync fs snapshotPath = false then
      if st._updateSnapshot = "new" ∨ st._updateSnapshot = "all" then
        (.ok { pass := true },
         { st with added := st.added + 1 },
         fs.write snapshotPath (.bin received))
      else
        (.ok { pass := false, message := some missingSnapshotMessage }, st, fs)
    else
      let tmpReceivedPath := oracle.tmpDir ++ "/received.png"
      let tmpDiffPath := oracle.tmpDir ++ "/diff.png"
      let fs1 := fs.write tmpReceivedPath (.bin received)
      let fs2 :=
        if engineWritesDiff oracle.engine then fs1.write tmpDiffPath (.bin oracle.engineDiff)
        else fs1
      match checkImages oracle.engine snapshotNumber configuration with
      | .error d => (.error (.engine d), st, fs2)
      | .ok r =>
        if r.pass = false then
          if st._updateSnapshot = "all" then
            (.ok { pass := true },
             { st with updated := st.updated + 1 },
             fs2.write snapshotPath (.bin received))
          else if configuration.noReport = false then
            let receivedPath := reportPath ++ "/received.png"
            let diffPath := reportPath ++ "/diff.png"
            let snapshotPathReport := reportPath ++ "/snapshot.png"
            let fs3 := fs2.write receivedPath (.bin received)
            let fs4 :=
              match fs2 tmpDiffPath with
              | some d => fs3.write diffPath d
              | none => fs3
            let fs5 :=
              match fs2 snapshotPath with
              | some d => fs4.write snapshotPathReport d
              | none => fs4
            let fs6 := fs5.write (reportPath ++ "/info.json")
              (.txt (infoJson ctx.currentTestName ((r.message).getD "")
                r.changedRelative r.changedPixels
                (relPath oracle.cwd ctx.testPath) snapshotNumber
                (relPath (getReportDir configuration.reportDir) receivedPath)
                (relPath (getReportDir configuration.reportDir) diffPath)
                (relPath (getReportDir configuration.reportDir) snapshotPathReport)))
            (.ok { pass := r.pass, message := r.message }, st, fs6)
          else
            (.ok { pass := r.pass, message := r.message }, st, fs2)
        else
          (.ok { pass := r.pass, message := r.message }, st, fs2)

/-- One assertion call of a run: everything except the threaded snapshot
    state and file system. -/
structure TmisCall where
  testPath : String
  currentTestName : String
  received : List Nat
  configuration : JestScreenshotConfiguration
  parametersPath : Option String
  oracle : TmisOracle

/-- Runs a sequence of assertion calls, each in a valid, non-negated
    context, threading state and files, and records for each call the
    test name together with the occurrence index the call uses. -/
def runCalls : List TmisCall → SnapshotState → FS → List (String × Nat) × SnapshotState × FS
  | [], st, fs => ([], st, fs)
  | c :: rest, st, fs =>
    let idx := nextSnapshotNumber st c.currentTestName
    let step := toMatchImageSnapshot
      { valid := true, testPath := c.testPath, currentTestName := c.currentTestName,
        isNot := false, snapshotState := st }
      c.received c.configuration c.parametersPath c.oracle fs
    let tail := runCalls rest step.2.1 step.2.2
    ((c.currentTestName, idx) :: tail.1, tail.2)

/-- C1: for every comparison outcome and threshold configuration, the
    verdict engine evaluates its failure rules in this exact precedence
    with strict inequalities: if the absolute pixel threshold is a
    configured number and is strictly exceeded the verdict is the
    absolute failure; else if the relative threshold is a configured
    number and is strictly exceeded, the relative failure; else if the
    outcome is unmatched with a dimension-mismatch reason, the dimension
    failure; otherwise pass. At the boundary, `diffCount = T` passes the
    absolute rule and `diffCount = T + 1` fails it; `diffPercentage = R`
    passes the relative rule and any value `> R` fails it. -/
theorem claim_C1_verdict_precedence (o : OdiffReturnType) (n : Nat)
    (c : JestScreenshotConfiguration) :
    (specAbsoluteRule c o → checkImagesVerdict o n c = absoluteFailure o n c)
    ∧ (¬ specAbsoluteRule c o → specRelativeRule c o →
        checkImagesVerdict o n c = relativeFailure o n c)
    ∧ (¬ specAbsoluteRule c o → ¬ specRelativeRule c o → specDimensionRule o →
        checkImagesVerdict o n c = dimensionFailure o n)
    ∧ (¬ specAbsoluteRule c o → ¬ specRelativeRule c o → ¬ specDimensionRule o →
        checkImagesVerdict o n c = { pass := true })
    ∧ ((checkImagesVerdict o n c).pass = false ↔
        specAbsoluteRule c o ∨ specRelativeRule c o ∨ specDimensionRule o)
    ∧ (∀ T, c.pixelThresholdAbsolute = some T →
        ¬ specAbsoluteRule c { o with diffCount := .num T }
          ∧ specAbsoluteRule c { o with diffCount := .num (T + 1) })
    ∧ (∀ R, c.pixelThresholdRelative = some R →
        ¬ specRelativeRule c { o with diffPercentage := .num R }
          ∧ ∀ v, R < v → specRelativeRule c { o with diffPercentage := .num v }) := by
  have habs := absoluteThresholdExceeded_iff c o
  have hrel := relativeThresholdExceeded_iff c o
  have hdim := dimensionMismatchFailed_iff o
  refine ⟨?_, ?_, ?_, ?_, ?_, ?_, ?_⟩
  · intro h
    simp [checkImagesVerdict, habs.mpr h]
  · intro h1 h2
    have b1 : absoluteThresholdExceeded c o = false := by
      cases hb : absoluteThresholdExceeded c o with
      | true => exact absurd (habs.mp hb) h1
      | false => rfl
    simp [checkImagesVerdict, b1, hrel.mpr h2]
  · intro h1 h2 h3
    have b1 : absoluteThresholdExceeded c o = false := by
      cases hb : absoluteThresholdExceeded c o with
      | true => exact absurd (habs.mp hb) h1
      | false => rfl
    have b2 : relativeThresholdExceeded c o = false := by
      cases hb : relativeThresholdExceeded c o with
      | true => exact absurd (hrel.mp hb) h2
      | false => rfl
    simp [checkImagesVerdict, b1, b2, hdim.mpr h3]
  · intro h1 h2 h3
    have b1 : absoluteThresholdExceeded c o = false := by
      cases hb : absoluteThresholdExceeded c o with
      | true => exact absurd (habs.mp hb) h1
      | false => rfl
    have b2 : relativeThresholdExceeded c o = false := by
      cases hb : relativeThresholdExceeded c o with
      | true => exact absurd (hrel.mp hb) h2
      | false => rfl
    have b3 : dimensionMismatchFailed o = false := by
      cases hb : dimensionMismatchFailed o with
      | true => exact absurd (hdim.mp hb) h3
      | false => rfl
    simp [checkImagesVerdict, b1, b2, b3]
  · unfold checkImagesVerdict
    cases hb1 : absoluteThresholdExceeded c o with
    | true => simp [absoluteFailure, habs.mp hb1]
    | false =>
      cases hb2 : relativeThresholdExceeded c o with
      | true =>
        simp only [Bool.false_eq_true, if_false, if_true, relativeFailure]
        simp [hrel.mp hb2]
      | false =>
        cases hb3 : dimensionMismatchFailed o with
        | true =>
          simp only [Bool.false_eq_true, if_false, if_true, dimensionFailure]
          simp [hdim.mp hb3]
        | false =>
          have n1 : ¬ specAbsoluteRule c o := fun h => by rw [habs.mpr h] at hb1; cases hb1
          have n2 : ¬ specRelativeRule c o := fun h => by rw [hrel.mpr h] at hb2; cases hb2
          have n3 : ¬ specDimensionRule o := fun h => by rw [hdim.mpr h] at hb3; cases hb3
          simp [n1, n2, n3]
  · intro T hT
    constructor
    · rintro ⟨T', hT', hg⟩
      rw [hT] at hT'
      injection hT' with h
      rw [← h] at hg
      simp [JSNum.gtQ] at hg
    · exact ⟨T, hT, by simp [JSNum.gtQ]⟩
  · intro R hR
    constructor
    · rintro ⟨R', hR', hg⟩
      rw [hR] at hR'
      injection hR' with h
      rw [← h] at hg
      simp [JSNum.gtQ] at hg
    · intro v hv
      exact ⟨R, hR, by simp [JSNum.gtQ, hv]⟩

/-- Witness for C1 at a concrete input: an unmatched pixel-diff outcome
    with 5 differing pixels against a configured absolute threshold of 3
    produces exactly the absolute-threshold failure. -/
theorem claim_C1_witness :
    checkImagesVerdict
        { matched := false, reason := some .pixelDiff, diffCount := .num 5, diffPercentage := .num 0 }
        1 { pixelThresholdAbsolute := some 3 }
      = absoluteFailure
        { matched := false, reason := some .pixelDiff, diffCount := .num 5, diffPercentage := .num 0 }
        1 { pixelThresholdAbsolute := some 3 }
    ∧ (checkImagesVerdict
        { matched := false, reason := some .pixelDiff, diffCount := .num 5, diffPercentage := .num 0 }
        1 { pixelThresholdAbsolute := some 3 }).pass = false :=
  ⟨(claim_C1_verdict_precedence _ 1 _).1 ⟨3, rfl, by decide⟩,
   (claim_C1_verdict_precedence _ 1 _).2.2.2.2.1.mpr (Or.inl ⟨3, rfl, by decide⟩)⟩

/-- C2, evaluation at the failing input: an unmatched pixel-diff outcome
    with one differing pixel and no configured thresholds falls through
    all three failure rules and the verdict engine returns a passing
    verdict — there is no default zero-tolerance rule in the code. -/
theorem claim_C2_no_threshold_pixel_diff_passes :
    checkImagesVerdict
        { matched := false, reason := some .pixelDiff,
          diffCount := .num 1, diffPercentage := .num (1 / 100) }
        1 { } = { pass := true } := by
  rfl

/-- C3: for every outcome the comparator adapter can produce with
    `diffCount = 0` and no failure reason, and every configuration whose
    configured thresholds are non-negative (the spec constrains
    `pixelThresholdAbsolute` to non-negative integers and
    `pixelThresholdRelative` to `[0,1]`), the verdict engine passes. -/
theorem claim_C3_clean_outcome_passes (e : EngineResult) (o : OdiffReturnType)
    (ho : OdiffSync.compare e = .ok o) (h0 : o.diffCount = .num 0) (hr : o.reason = none)
    (c : JestScreenshotConfiguration)
    (ha : ∀ T, c.pixelThresholdAbsolute = some T → 0 ≤ T)
    (hb : ∀ R, c.pixelThresholdRelative = some R → 0 ≤ R)
    (n : Nat) :
    (checkImagesVerdict o n c).pass = true := by
  have hm : o.matched = true ∧ o.diffPercentage = .num 0 := by
    cases e with
    | success =>
      simp only [OdiffSync.compare] at ho
      cases ho
      exact ⟨rfl, rfl⟩
    | failure s out =>
      simp only [OdiffSync.compare] at ho
      split at ho
      · cases ho
        simp at hr
      · split at ho
        · cases ho
          simp at hr
        · cases ho
  obtain ⟨hmt, hp0⟩ := hm
  have g1 : absoluteThresholdExceeded c o = false := by
    unfold absoluteThresholdExceeded
    cases hc : c.pixelThresholdAbsolute with
    | none => rfl
    | some T =>
      rw [h0]
      simp only [JSNum.gtQ, decide_eq_false_iff_not]
      exact not_lt.mpr (ha T hc)
  have g2 : relativeThresholdExceeded c o = false := by
    unfold relativeThresholdExceeded
    cases hc : c.pixelThresholdRelative with
    | none => rfl
    | some R =>
      rw [hp0]
      simp only [JSNum.gtQ, decide_eq_false_iff_not]
      exact not_lt.mpr (hb R hc)
  have g3 : dimensionMismatchFailed o = false := by
    unfold dimensionMismatchFailed
    simp [hmt]
  simp [checkImagesVerdict, g1, g2, g3]

/-- Witness for C3: a matched engine run under both thresholds configured
    at zero still passes. -/
theorem claim_C3_witness :
    (checkImagesVerdict
        { matched := true, reason := none, diffCount := .num 0, diffPercentage := .num 0 }
        1 { pixelThresholdAbsolute := some 0, pixelThresholdRelative := some 0 }).pass = true :=
  claim_C3_clean_outcome_passes .success _ rfl rfl rfl _
    (fun T hT => by injection hT with h; exact le_of_eq h)
    (fun R hR => by injection hR with h; exact le_of_eq h) 1

/-- C4: the comparator adapter maps the engine result to exactly four
    cases — exit 0 gives a matched outcome; status 21 an unmatched
    layout-diff outcome; status 22 an unmatched pixel-diff outcome with
    `diffCount` parsed from the semicolon-split output and
    `diffPercentage` the parsed percentage divided by 100; any other
    status (including a falsy one) is not converted but rethrown, after
    the diagnostics (exit status and raw output) are written to the
    error channel. -/
theorem claim_C4_compare_adapter_cases :
    OdiffSync.compare .success =
        .ok { matched := true, reason := none, diffCount := .num 0, diffPercentage := .num 0 }
    ∧ (∀ output, OdiffSync.compare (.failure (some 21) output) =
        .ok { matched := false, reason := some .layoutDiff,
              diffCount := .num 0, diffPercentage := .num 0 })
    ∧ (∀ output, OdiffSync.compare (.failure (some 22) output) =
        .ok { matched := false, reason := some .pixelDiff,
              diffCount := jsNumOfInt (jsParseInt
                (((splitSemi (jsTrim (joinOutput output)))[0]?).getD "0")),
              diffPercentage := jsNumDiv100 (jsParseFloat
                (((splitSemi (jsTrim (joinOutput output)))[1]?).getD "0")) })
    ∧ (∀ status output, jsStatusTruthy status = true → status ≠ some 21 → status ≠ some 22 →
        OdiffSync.compare (.failure status output) = .error (compareDiagnostics status output))
    ∧ (∀ status output, jsStatusTruthy status = false →
        OdiffSync.compare (.failure status output) = .error (compareDiagnostics status output))
    ∧ (∀ s output, s ≠ 0 →
        ("Exit code: " ++ toString s) ∈ compareDiagnostics (some s) (some output)
          ∧ String.intercalate "\n" output ∈ compareDiagnostics (some s) (some output)) := by
  refine ⟨rfl, fun output => rfl, fun output => rfl, ?_, ?_, ?_⟩
  · intro status output h1 h2 h3
    simp only [OdiffSync.compare]
    rw [if_neg, if_neg]
    · rintro ⟨-, h⟩
      exact h3 h
    · rintro ⟨-, h⟩
      exact h2 h
  · intro status output h1
    simp only [OdiffSync.compare]
    rw [if_neg, if_neg]
    · rintro ⟨h, -⟩
      rw [h1] at h
      cases h
    · rintro ⟨h, -⟩
      rw [h1] at h
      cases h
  · intro s output hs
    simp [compareDiagnostics, hs]

/-- Witness for C4 at concrete inputs: status 9 with output `["boom"]`
    is rethrown with both diagnostics present, and a status-less engine
    crash is rethrown as well. -/
theorem claim_C4_witness :
    OdiffSync.compare (.failure (some 9) (some ["boom"])) =
        .error (compareDiagnostics (some 9) (some ["boom"]))
    ∧ OdiffSync.compare (.failure none (some ["boom"])) =
        .error (compareDiagnostics none (some ["boom"]))
    ∧ ("Exit code: " ++ toString 9) ∈ compareDiagnostics (some 9) (some ["boom"])
    ∧ OdiffSync.compare (.failure (some 21) (some ["x"])) =
        .ok { matched := false, reason := some .layoutDiff,
              diffCount := .num 0, diffPercentage := .num 0 } :=
  ⟨claim_C4_compare_adapter_cases.2.2.2.1 (some 9) (some ["boom"]) (by decide)
      (by decide) (by decide),
   claim_C4_compare_adapter_cases.2.2.2.2.1 none (some ["boom"]) (by decide),
   (claim_C4_compare_adapter_cases.2.2.2.2.2 9 ["boom"] (by decide)).1,
   claim_C4_compare_adapter_cases.2.1 (some ["x"])⟩

/-- C5: every outcome the comparator adapter returns satisfies the data
    model invariant — a layout-diff reason comes with
    `diffCount = diffPercentage = 0`, and a matched outcome carries no
    failure reason. -/
theorem claim_C5_outcome_invariant (e : EngineResult) (o : OdiffReturnType)
    (ho : OdiffSync.compare e = .ok o) :
    (o.reason = some .layoutDiff → o.diffCount = .num 0 ∧ o.diffPercentage = .num 0)
    ∧ (o.matched = true → o.reason = none) := by
  cases e with
  | success =>
    simp only [OdiffSync.compare] at ho
    cases ho
    refine ⟨fun h => ?_, fun _ => rfl⟩
    cases h
  | failure s out =>
    simp only [OdiffSync.compare] at ho
    split at ho
    · cases ho
      refine ⟨fun _ => ⟨rfl, rfl⟩, fun h => ?_⟩
      cases h
    · split at ho
      · cases ho
        refine ⟨fun h => ?_, fun h => ?_⟩
        · injection h with h'
          cases h'
        · cases h
      · cases ho

/-- Witness for C5 at a concrete input: the layout-diff outcome of a
    status-21 engine run. -/
theorem claim_C5_witness :
    { matched := false, reason := some .layoutDiff,
      diffCount := .num 0, diffPercentage := .num 0 : OdiffReturnType }.diffCount = .num 0
    ∧ { matched := false, reason := some .layoutDiff,
        diffCount := .num 0, diffPercentage := .num 0 : OdiffReturnType }.diffPercentage
       = .num 0 :=
  (claim_C5_outcome_invariant (.failure (some 21) none) _ rfl).1 rfl

/-- C10: in the status-22 branch the adapter splits the joined, trimmed
    output on `';'`; the split always yields a first element, so the `'0'`
    default for `diffCount` is unreachable and `diffCount` is always the
    parse of the first field, while the `'0'` default for the percentage
    applies exactly when the second field is absent. For empty engine
    output the outcome's `diffCount` is the parse of the empty string —
    NaN, not a non-negative integer. -/
theorem claim_C10_parse_defaults :
    (∀ output, ∃ first rest,
        splitSemi (jsTrim (joinOutput output)) = first :: rest
        ∧ OdiffSync.compare (.failure (some 22) output) =
            .ok { matched := false, reason := some .pixelDiff,
                  diffCount := jsNumOfInt (jsParseInt first),
                  diffPercentage := jsNumDiv100 (jsParseFloat ((rest[0]?).getD "0")) })
    ∧ (OdiffSync.compare (.failure (some 22) (some []))).map
        (fun o => (o.matched, o.reason, o.diffCount)) =
        .ok (false, some .pixelDiff, .nan)
    ∧ jsParseInt "" = none := by
  refine ⟨?_, rfl, rfl⟩
  intro output
  obtain ⟨first, rest, hsplit⟩ :=
    List.exists_cons_of_ne_nil (splitSemi_ne_nil (jsTrim (joinOutput output)))
  refine ⟨first, rest, hsplit, ?_⟩
  have base : OdiffSync.compare (.failure (some 22) output) =
      .ok { matched := false, reason := some .pixelDiff,
            diffCount := jsNumOfInt (jsParseInt
              (((splitSemi (jsTrim (joinOutput output)))[0]?).getD "0")),
            diffPercentage := jsNumDiv100 (jsParseFloat
              (((splitSemi (jsTrim (joinOutput output)))[1]?).getD "0")) } := rfl
  rw [hsplit] at base
  simpa using base

theorem toMatchImageSnapshot_counters (ctx : JestContext) (received : List Nat)
    (configuration : JestScreenshotConfiguration) (parametersPath : Option String)
    (oracle : TmisOracle) (fs : FS) (hv : ctx.valid = true) (hn : ctx.isNot = false) :
    (toMatchImageSnapshot ctx received configuration parametersPath oracle fs).2.1._counters =
      fun n => if n = ctx.currentTestName
        then some (nextSnapshotNumber ctx.snapshotState ctx.currentTestName)
        else ctx.snapshotState._counters n := by
  simp only [toMatchImageSnapshot, hv, hn]
  norm_num
  split
  · split
    · rfl
    · rfl
  · split
    · rfl
    · split
      · split
        · rfl
        · split
          · rfl
          · rfl
      · rfl

theorem runCalls_indices (calls : List TmisCall) (st : SnapshotState) (fs : FS) (name : String) :
    ((runCalls calls st fs).1.filterMap
        (fun p => if p.1 = name then some p.2 else none)) =
      List.range' ((st._counters name).getD 0 + 1)
        (calls.countP (fun cl => decide (cl.currentTestName = name))) := by
  induction calls generalizing st fs with
  | nil => simp [runCalls]
  | cons c rest ih =>
    have hc := toMatchImageSnapshot_counters
      { valid := true, testPath := c.testPath, currentTestName := c.currentTestName,
        isNot := false, snapshotState := st }
      c.received c.configuration c.parametersPath c.oracle fs rfl rfl
    simp only [runCalls, List.filterMap_cons, List.countP_cons]
    by_cases h : c.currentTestName = name
    · rw [if_pos h]
      rw [ih _ _]
      rw [hc]
      simp [h, nextSnapshotNumber, List.range'_succ]
    · rw [if_neg h]
      rw [ih _ _]
      rw [hc]
      have hne : ¬ (name = c.currentTestName) := fun hh => h hh.symm
      simp only [if_neg hne]
      simp [h]

/-- C8: every matcher call assigns an occurrence index equal to the
    stored per-test-name counter plus one (an absent entry counting as
    zero), stores the new value back without touching other test names,
    and consequently the indices observed by the calls of one test name
    over a run started with empty counters form the strictly increasing
    sequence 1, 2, 3, ..., independent of calls under other names. -/
theorem claim_C8_occurrence_index :
    (∀ (ctx : JestContext) (received : List Nat)
        (configuration : JestScreenshotConfiguration) (parametersPath : Option String)
        (oracle : TmisOracle) (fs : FS), ctx.valid = true → ctx.isNot = false →
      nextSnapshotNumber ctx.snapshotState ctx.currentTestName =
          (ctx.snapshotState._counters ctx.currentTestName).getD 0 + 1
        ∧ (toMatchImageSnapshot ctx received configuration parametersPath oracle fs).2.1._counters
            ctx.currentTestName
            = some (nextSnapshotNumber ctx.snapshotState ctx.currentTestName)
        ∧ ∀ m, m ≠ ctx.currentTestName →
            (toMatchImageSnapshot ctx received configuration parametersPath oracle fs).2.1._counters m
              = ctx.snapshotState._counters m)
    ∧ ∀ (calls : List TmisCall) (st : SnapshotState) (fs : FS) (name : String),
        st._counters = (fun _ => none) →
        ((runCalls calls st fs).1.filterMap
            (fun p => if p.1 = name then some p.2 else none)) =
          List.range' 1 (calls.countP (fun cl => decide (cl.currentTestName = name))) := by
  constructor
  · intro ctx received configuration parametersPath oracle fs hv hn
    have hc := toMatchImageSnapshot_counters ctx received configuration parametersPath oracle fs hv hn
    refine ⟨rfl, ?_, ?_⟩
    · rw [hc]
      simp
    · intro m hm
      rw [hc]
      simp [hm]
  · intro calls st fs name h0
    have h := runCalls_indices calls st fs name
    rw [h0] at h
    simpa using h

/-- Witness for C8: one concrete call bumps the counter of its test name
    to 1, and a concrete three-call run (names A, B, A) yields occurrence
    indices [1, 2] for name A. -/
theorem claim_C8_witness :
    (toMatchImageSnapshot
        { valid := true, testPath := "t.test.ts", currentTestName := "A", isNot := false,
          snapshotState := { _updateSnapshot := "none", _counters := fun _ => none,
                             added := 0, updated := 0 } }
        [1] { } (some "s.png")
        { tmpDir := "/tmp/a", engine := .success, engineDiff := [], cwd := "/w" }
        (fun _ => none)).2.1._counters "A" = some 1
    ∧ ((runCalls
        [{ testPath := "t.test.ts", currentTestName := "A", received := [1],
           configuration := { }, parametersPath := some "sA.png",
           oracle := { tmpDir := "/tmp/a", engine := .success, engineDiff := [], cwd := "/w" } },
         { testPath := "t.test.ts", currentTestName := "B", received := [2],
           configuration := { }, parametersPath := some "sB.png",
           oracle := { tmpDir := "/tmp/b", engine := .success, engineDiff := [], cwd := "/w" } },
         { testPath := "t.test.ts", currentTestName := "A", received := [3],
           configuration := { }, parametersPath := some "sA.png",
           oracle := { tmpDir := "/tmp/c", engine := .success, engineDiff := [], cwd := "/w" } }]
        { _updateSnapshot := "none", _counters := fun _ => none, added := 0, updated := 0 }
        (fun _ => none)).1.filterMap
          (fun p => if p.1 = "A" then some p.2 else none)) = List.range' 1 2 :=
  ⟨(claim_C8_occurrence_index.1
      { valid := true, testPath := "t.test.ts", currentTestName := "A", isNot := false,
        snapshotState := { _updateSnapshot := "none", _counters := fun _ => none,
                           added := 0, updated := 0 } }
      [1] { } (some "s.png")
      { tmpDir := "/tmp/a", engine := .success, engineDiff := [], cwd := "/w" }
      (fun _ => none) rfl rfl).2.1,
   claim_C8_occurrence_index.2 _ _ _ "A" rfl⟩

/-- C9: called outside a compatible assertion context or in negated
    form, the matcher throws instead of returning any pass/fail result,
    and this happens before any counter mutation or file access — the
    snapshot state and the file system are returned unchanged. -/
theorem claim_C9_usage_errors (ctx : JestContext) (received : List Nat)
    (configuration : JestScreenshotConfiguration) (parametersPath : Option String)
    (oracle : TmisOracle) (fs : FS)
    (h : ctx.valid = false ∨ ctx.isNot = true) :
    (∀ r, (toMatchImageSnapshot ctx received configuration parametersPath oracle fs).1 ≠ .ok r)
    ∧ (toMatchImageSnapshot ctx received configuration parametersPath oracle fs).2.1
        = ctx.snapshotState
    ∧ (toMatchImageSnapshot ctx received configuration parametersPath oracle fs).2.2 = fs := by
  rcases h with h | h
  · simp [toMatchImageSnapshot, h]
  · by_cases hv : ctx.valid = false
    · simp [toMatchImageSnapshot, hv]
    · have hv' : ctx.valid = true := by
        revert hv
        cases ctx.valid <;> simp
      simp [toMatchImageSnapshot, hv', h]

/-- Witness for C9: a negated call at a concrete context throws, leaving
    state and files untouched. -/
theorem claim_C9_witness :
    (toMatchImageSnapshot
        { valid := true, testPath := "t.test.ts", currentTestName := "A", isNot := true,
          snapshotState := { _updateSnapshot := "none", _counters := fun _ => none,
                             added := 0, updated := 0 } }
        [1] { } none
        { tmpDir := "/tmp/a", engine := .success, engineDiff := [], cwd := "/w" }
        (fun _ => none)).1 ≠ .ok { pass := true }
    ∧ (toMatchImageSnapshot
        { valid := true, testPath := "t.test.ts", currentTestName := "A", isNot := true,
          snapshotState := { _updateSnapshot := "none", _counters := fun _ => none,
                             added := 0, updated := 0 } }
        [1] { } none
        { tmpDir := "/tmp/a", engine := .success, engineDiff := [], cwd := "/w" }
        (fun _ => none)).2.1
        = { _updateSnapshot := "none", _counters := fun _ => none, added := 0, updated := 0 } :=
  ⟨(claim_C9_usage_errors _ [1] { } none _ (fun _ => none) (Or.inr rfl)).1 { pass := true },
   (claim_C9_usage_errors _ [1] { } none _ (fun _ => none) (Or.inr rfl)).2.1⟩

/-- C6: when the reference image file does not exist, update mode "new"
    or "all" writes the received bytes as the new reference, increments
    the added counter by one and passes; any other update mode fails with
    the message mentioning "not written", creates no file and writes no
    report bundle (the file system is unchanged). -/
theorem claim_C6_missing_reference (ctx : JestContext) (received : List Nat)
    (configuration : JestScreenshotConfiguration) (parametersPath : Option String)
    (oracle : TmisOracle) (fs : FS)
    (hv : ctx.valid = true) (hn : ctx.isNot = false)
    (hmiss : fs (resolvedSnapshotPath ctx configuration parametersPath) = none) :
    ((ctx.snapshotState._updateSnapshot = "new" ∨ ctx.snapshotState._updateSnapshot = "all") →
      (toMatchImageSnapshot ctx received configuration parametersPath oracle fs).1
          = .ok { pass := true }
        ∧ (toMatchImageSnapshot ctx received configuration parametersPath oracle fs).2.1.added
            = ctx.snapshotState.added + 1
        ∧ (toMatchImageSnapshot ctx received configuration parametersPath oracle fs).2.2
            (resolvedSnapshotPath ctx configuration parametersPath) = some (.bin received)
        ∧ ∀ p, p ≠ resolvedSnapshotPath ctx configuration parametersPath →
            (toMatchImageSnapshot ctx received configuration parametersPath oracle fs).2.2 p = fs p)
    ∧ (ctx.snapshotState._updateSnapshot ≠ "new" → ctx.snapshotState._updateSnapshot ≠ "all" →
      (toMatchImageSnapshot ctx received configuration parametersPath oracle fs).1
          = .ok { pass := false, message := some missingSnapshotMessage }
        ∧ List.IsInfix "not written".data missingSnapshotMessage.data
        ∧ (toMatchImageSnapshot ctx received configuration parametersPath oracle fs).2.2 = fs) := by
  have hex : existsSync fs (resolvedSnapshotPath ctx configuration parametersPath) = false := by
    rw [existsSync, hmiss]
    rfl
  constructor
  · intro hmode
    simp only [toMatchImageSnapshot, hv, hn, hex]
    norm_num
    rw [if_pos hmode]
    refine ⟨rfl, rfl, ?_, ?_⟩
    · simp [FS.write]
    · intro p hp
      simp [FS.write, hp]
  · intro h1 h2
    simp only [toMatchImageSnapshot, hv, hn, hex]
    norm_num
    rw [if_neg]
    · exact ⟨rfl, by decide, rfl⟩
    · rintro (h | h)
      · exact h1 h
      · exact h2 h

/-- Witness for C6: both branches at concrete inputs — mode "new" writes
    the reference and passes; the default mode fails with the
    missing-snapshot message and leaves the file system unchanged. -/
theorem claim_C6_witness :
    (toMatchImageSnapshot
        { valid := true, testPath := "t.test.ts", currentTestName := "A", isNot := false,
          snapshotState := { _updateSnapshot := "new", _counters := fun _ => none,
                             added := 0, updated := 0 } }
        [7] { } (some "snap.png")
        { tmpDir := "/tmp/a", engine := .success, engineDiff := [], cwd := "/w" }
        (fun _ => none)).1 = .ok { pass := true }
    ∧ (toMatchImageSnapshot
        { valid := true, testPath := "t.test.ts", currentTestName := "A", isNot := false,
          snapshotState := { _updateSnapshot := "new", _counters := fun _ => none,
                             added := 0, updated := 0 } }
        [7] { } (some "snap.png")
        { tmpDir := "/tmp/a", engine := .success, engineDiff := [], cwd := "/w" }
        (fun _ => none)).2.2 "snap.png" = some (.bin [7])
    ∧ (toMatchImageSnapshot
        { valid := true, testPath := "t.test.ts", currentTestName := "A", isNot := false,
          snapshotState := { _updateSnapshot := "none", _counters := fun _ => none,
                             added := 0, updated := 0 } }
        [7] { } (some "snap.png")
        { tmpDir := "/tmp/a", engine := .success, engineDiff := [], cwd := "/w" }
        (fun _ => none)).1 = .ok { pass := false, message := some missingSnapshotMessage } :=
  ⟨((claim_C6_missing_reference
      { valid := true, testPath := "t.test.ts", currentTestName := "A", isNot := false,
        snapshotState := { _updateSnapshot := "new", _counters := fun _ => none,
                           added := 0, updated := 0 } }
      [7] { } (some "snap.png")
      { tmpDir := "/tmp/a", engine := .success, engineDiff := [], cwd := "/w" }
      (fun _ => none) rfl rfl rfl).1 (Or.inl rfl)).1,
   ((claim_C6_missing_reference
      { valid := true, testPath := "t.test.ts", currentTestName := "A", isNot := false,
        snapshotState := { _updateSnapshot := "new", _counters := fun _ => none,
                           added := 0, updated := 0 } }
      [7] { } (some "snap.png")
      { tmpDir := "/tmp/a", engine := .success, engineDiff := [], cwd := "/w" }
      (fun _ => none) rfl rfl rfl).1 (Or.inl rfl)).2.2.1,
   ((claim_C6_missing_reference
      { valid := true, testPath := "t.test.ts", currentTestName := "A", isNot := false,
        snapshotState := { _updateSnapshot := "none", _counters := fun _ => none,
                           added := 0, updated := 0 } }
      [7] { } (some "snap.png")
      { tmpDir := "/tmp/a", engine := .success, engineDiff := [], cwd := "/w" }
      (fun _ => none) rfl rfl rfl).2 (by decide) (by decide)).1⟩

/-- C7: when the reference exists, the comparison verdict fails and the
    update mode is "all", the matcher overwrites the reference with the
    received bytes, increments the updated counter by one, returns a
    passing result, and writes no report bundle — apart from the
    temporary files of this call, no path other than the reference
    changes. -/
theorem claim_C7_update_all_overwrites (ctx : JestContext) (received : List Nat)
    (configuration : JestScreenshotConfiguration) (parametersPath : Option String)
    (oracle : TmisOracle) (fs : FS)
    (hv : ctx.valid = true) (hn : ctx.isNot = false)
    (hex : existsSync fs (resolvedSnapshotPath ctx configuration parametersPath) = true)
    (hall : ctx.snapshotState._updateSnapshot = "all")
    (r : ImageMatcherResult)
    (hr : checkImages oracle.engine (nextSnapshotNumber ctx.snapshotState ctx.currentTestName)
            configuration = .ok r)
    (hfail : r.pass = false) :
    (toMatchImageSnapshot ctx received configuration parametersPath oracle fs).1
        = .ok { pass := true }
    ∧ (toMatchImageSnapshot ctx received configuration parametersPath oracle fs).2.1.updated
        = ctx.snapshotState.updated + 1
    ∧ (toMatchImageSnapshot ctx received configuration parametersPath oracle fs).2.2
        (resolvedSnapshotPath ctx configuration parametersPath) = some (.bin received)
    ∧ ∀ p, p ≠ resolvedSnapshotPath ctx configuration parametersPath →
        p ≠ oracle.tmpDir ++ "/received.png" → p ≠ oracle.tmpDir ++ "/diff.png" →
        (toMatchImageSnapshot ctx received configuration parametersPath oracle fs).2.2 p = fs p := by
  simp only [toMatchImageSnapshot, hv, hn, hex]
  norm_num
  rw [hr]
  simp only [hfail]
  norm_num
  rw [if_pos hall]
  refine ⟨rfl, rfl, ?_, ?_⟩
  · simp [FS.write]
  · intro p hp1 hp2 hp3
    cases hw : engineWritesDiff oracle.engine <;>
      simp [FS.write, hw, hp1, hp2, hp3]

/-- Witness for C7: a stored reference, an engine pixel mismatch of 5
    pixels against an absolute threshold of 1, and update mode "all" —
    the call passes, bumps the updated counter and overwrites the
    reference. -/
theorem claim_C7_witness :
    (toMatchImageSnapshot
        { valid := true, testPath := "t.test.ts", currentTestName := "A", isNot := false,
          snapshotState := { _updateSnapshot := "all", _counters := fun _ => none,
                             added := 0, updated := 0 } }
        [7] { pixelThresholdAbsolute := some 1 } (some "snap.png")
        { tmpDir := "/tmp/a", engine := .failure (some 22) (some ["5;10"]),
          engineDiff := [9], cwd := "/w" }
        (fun p => if p = "snap.png" then some (.bin [0]) else none)).1 = .ok { pass := true }
    ∧ (toMatchImageSnapshot
        { valid := true, testPath := "t.test.ts", currentTestName := "A", isNot := false,
          snapshotState := { _updateSnapshot := "all", _counters := fun _ => none,
                             added := 0, updated := 0 } }
        [7] { pixelThresholdAbsolute := some 1 } (some "snap.png")
        { tmpDir := "/tmp/a", engine := .failure (some 22) (some ["5;10"]),
          engineDiff := [9], cwd := "/w" }
        (fun p => if p = "snap.png" then some (.bin [0]) else none)).2.1.updated = 1
    ∧ (toMatchImageSnapshot
        { valid := true, testPath := "t.test.ts", currentTestName := "A", isNot := false,
          snapshotState := { _updateSnapshot := "all", _counters := fun _ => none,
                             added := 0, updated := 0 } }
        [7] { pixelThresholdAbsolute := some 1 } (some "snap.png")
        { tmpDir := "/tmp/a", engine := .failure (some 22) (some ["5;10"]),
          engineDiff := [9], cwd := "/w" }
        (fun p => if p = "snap.png" then some (.bin [0]) else none)).2.2 "snap.png"
        = some (.bin [7]) := by
  have h := claim_C7_update_all_overwrites
    { valid := true, testPath := "t.test.ts", currentTestName := "A", isNot := false,
      snapshotState := { _updateSnapshot := "all", _counters := fun _ => none,
                         added := 0, updated := 0 } }
    [7] { pixelThresholdAbsolute := some 1 } (some "snap.png")
    { tmpDir := "/tmp/a", engine := .failure (some 22) (some ["5;10"]),
      engineDiff := [9], cwd := "/w" }
    (fun p => if p = "snap.png" then some (.bin [0]) else none)
    rfl rfl rfl rfl _ rfl rfl
  exact ⟨h.1, h.2.1, h.2.2.1⟩
